import Mathlib

set_option maxHeartbeats 1000000

-- ============================================================================
-- Shallow embedding of src/src/libxsmm_bindings.rs.
-- Raw pointers are modelled as natural numbers, with 0 playing the role of
-- the null pointer.  Function pointers to generated machine code are modelled
-- as opaque numeric code ids; the behaviour of the external code generator
-- (libxsmm_dispatch_gemm), the architecture probe (libxsmm_get_target_archid)
-- and the reference routine (libxsmm_sgemm) are external collaborators and
-- enter the model as parameters.
-- ============================================================================

abbrev Ptr := Nat

def nullPtr : Ptr := 0

-- Data type constants (src lines 11-16).
def LIBXSMM_DATATYPE_F64 : Int := 0

def LIBXSMM_DATATYPE_F32 : Int := 1

def LIBXSMM_DATATYPE_BF16 : Int := 2

def LIBXSMM_DATATYPE_F16 : Int := 3

def LIBXSMM_DATATYPE_I8 : Int := 12

def LIBXSMM_DATATYPE_U8 : Int := 13

-- GEMM flag constants (src lines 22-26).
def LIBXSMM_GEMM_FLAG_NONE : Nat := 0

def LIBXSMM_GEMM_FLAG_BETA_0 : Nat := 4

def LIBXSMM_GEMM_FLAG_VNNI_A : Nat := 2048

def LIBXSMM_GEMM_FLAG_VNNI_B : Nat := 4096

def LIBXSMM_GEMM_FLAG_A_UNSIGNED : Nat := 256

-- Architecture id constants (src lines 32-36).
def LIBXSMM_TARGET_ARCH_AVX2 : Int := 1006

def LIBXSMM_TARGET_ARCH_AVX512_SKX : Int := 1101

def LIBXSMM_TARGET_ARCH_AVX512_CLX : Int := 1102

def LIBXSMM_TARGET_ARCH_AVX512_CPX : Int := 1103

def LIBXSMM_TARGET_ARCH_AVX512_SPR : Int := 1104

/-- GEMM shape descriptor (src lines 46-57): kernel dimensions plus data
types; `LibxsmmBlasint` is a 32-bit int, modelled as `Int`. -/
structure LibxsmmGemmShape where
  m : Int
  n : Int
  k : Int
  lda : Int
  ldb : Int
  ldc : Int
  a_in_type : Int
  b_in_type : Int
  out_type : Int
  comp_type : Int
deriving DecidableEq

/-- Data carrier for GEMM operands (src lines 62-69). -/
structure LibxsmmMatrixArg where
  primary : Ptr
  secondary : Ptr
  tertiary : Ptr
  quaternary : Ptr
  quinary : Ptr
  senary : Ptr
deriving DecidableEq

/-- `LibxsmmMatrixArg::from_ptr` (src lines 72-81): primary set, all other
slots null. -/
def LibxsmmMatrixArg.from_ptr (p : Ptr) : LibxsmmMatrixArg :=
  { primary := p
    secondary := nullPtr
    tertiary := nullPtr
    quaternary := nullPtr
    quinary := nullPtr
    senary := nullPtr }

/-- Operator state argument for GEMM (src lines 87-92). -/
structure LibxsmmMatrixOpArg where
  primary : Ptr
  secondary : Ptr
  tertiary : Ptr
  quaternary : Ptr
deriving DecidableEq

/-- `Default for LibxsmmMatrixOpArg` (src lines 94-103): all pointer fields
null. -/
def LibxsmmMatrixOpArg.default : LibxsmmMatrixOpArg :=
  { primary := nullPtr
    secondary := nullPtr
    tertiary := nullPtr
    quaternary := nullPtr }

/-- Call-site argument bundle handed to a JIT kernel (src lines 108-113). -/
structure LibxsmmGemmParam where
  op : LibxsmmMatrixOpArg
  a : LibxsmmMatrixArg
  b : LibxsmmMatrixArg
  c : LibxsmmMatrixArg
deriving DecidableEq

/-- `libxsmm_create_gemm_shape` (src lines 132-143): the external convenience
constructor that fills the shape struct fieldwise from its arguments. -/
def libxsmm_create_gemm_shape (m n k lda ldb ldc a_in b_in out comp : Int) :
    LibxsmmGemmShape :=
  { m := m, n := n, k := k, lda := lda, ldb := ldb, ldc := ldc
    a_in_type := a_in, b_in_type := b_in, out_type := out, comp_type := comp }

/-- The external `libxsmm_dispatch_gemm` (src lines 147-151): given a shape,
GEMM flags and prefetch flags, returns a code id of generated machine code,
or nothing when unsupported.  It is an external collaborator, so it is a
parameter of the model. -/
abbrev DispatchFn := LibxsmmGemmShape → Nat → Nat → Option Nat

/-- The `JitKernel` struct (src lines 219-221): it owns exactly one field,
the function pointer to the dispatched machine code. -/
structure JitKernel where
  kernel : Nat
deriving DecidableEq

/-- `JitKernel::f32_gemm` (src lines 226-244): builds the shape with
lda = m, ldb = k, ldc = m and all four datatypes F32, dispatches with flags
`LIBXSMM_GEMM_FLAG_BETA_0` and prefetch flags 0, and wraps the resulting
code pointer (the `libxsmm_init` call only touches external library state). -/
def JitKernel.f32_gemm (dispatch : DispatchFn) (m n k : Int) :
    Option JitKernel :=
  let shape := libxsmm_create_gemm_shape m n k m k m
    LIBXSMM_DATATYPE_F32 LIBXSMM_DATATYPE_F32
    LIBXSMM_DATATYPE_F32 LIBXSMM_DATATYPE_F32
  Option.map JitKernel.mk (dispatch shape LIBXSMM_GEMM_FLAG_BETA_0 0)

/-- `JitKernel::bf16_gemm` (src lines 248-266): same as `f32_gemm` but with
input datatypes BF16 and output/compute F32. -/
def JitKernel.bf16_gemm (dispatch : DispatchFn) (m n k : Int) :
    Option JitKernel :=
  let shape := libxsmm_create_gemm_shape m n k m k m
    LIBXSMM_DATATYPE_BF16 LIBXSMM_DATATYPE_BF16
    LIBXSMM_DATATYPE_F32 LIBXSMM_DATATYPE_F32
  Option.map JitKernel.mk (dispatch shape LIBXSMM_GEMM_FLAG_BETA_0 0)

/-- The argument bundle built by `JitKernel::call` (src lines 275-280):
zeroed op state, and each operand pointer in the primary slot of its
operand argument. -/
def JitKernel.callParam (a b c : Ptr) : LibxsmmGemmParam :=
  { op := LibxsmmMatrixOpArg.default
    a := LibxsmmMatrixArg.from_ptr a
    b := LibxsmmMatrixArg.from_ptr b
    c := LibxsmmMatrixArg.from_ptr c }

-- Machine memory is modelled as word-addressed cells holding the element
-- values; element arithmetic is modelled over the integers.
abbrev Mem := Nat → Int

/-- `JitKernel::call` (src lines 269-282): builds the param bundle and calls
the stored machine code on it.  `sem` gives the (external) semantics of each
code id as a memory transformer. -/
def JitKernel.call (sem : Nat → LibxsmmGemmParam → Mem → Mem)
    (self : JitKernel) (a b c : Ptr) (mem : Mem) : Mem :=
  sem self.kernel (JitKernel.callParam a b c) mem

-- ============================================================================
-- Modelled dispatch layer.  The repository source is FFI binding glue; the
-- spec's descriptor constructor, capability adapter, dispatch cache and
-- resolver are not present under src/, so they are modelled from the spec
-- below and the claims about them are settled against this model.
-- ============================================================================

/-- Modelled from the spec (§3): the closed operand datatype enumeration. -/
inductive Dtype
  | f64
  | f32
  | bf16
  | f16
  | i8
  | u8
deriving DecidableEq

/-- Modelled from the spec (§3): the immutable shape/type descriptor. -/
structure ShapeTypeDescriptor where
  m : Int
  n : Int
  k : Int
  lda : Int
  ldb : Int
  ldc : Int
  dtypeA : Dtype
  dtypeB : Dtype
  dtypeOut : Dtype
  dtypeComp : Dtype
deriving DecidableEq

/-- Modelled from the spec (§3): the bit-set of independent dispatch
options. -/
structure DispatchFlags where
  betaZero : Bool
  layoutA : Bool
  layoutB : Bool
  unsignedA : Bool
deriving DecidableEq

/-- Modelled from the spec (§3): the totally ordered capability tiers
(baseline vector < VNNI-like mid < native low-precision-float high <
matrix-extension top). -/
inductive CapabilityTier
  | baseline
  | mid
  | high
  | top
deriving DecidableEq

/-- Numeric rank realising the total order on capability tiers. -/
def CapabilityTier.toNat : CapabilityTier → Nat
  | .baseline => 0
  | .mid => 1
  | .high => 2
  | .top => 3

/-- Modelled from the spec (§6): map a raw architecture id from the external
probe to a tier, treating unrecognized ids as baseline; the raw id space is
the one in the src constants (SPR carries AMX, CPX carries BF16, CLX carries
VNNI). -/
def mapRawToTier (raw : Int) : CapabilityTier :=
  if raw = LIBXSMM_TARGET_ARCH_AVX512_SPR then .top
  else if raw = LIBXSMM_TARGET_ARCH_AVX512_CPX then .high
  else if raw = LIBXSMM_TARGET_ARCH_AVX512_CLX then .mid
  else .baseline

/-- Modelled from the spec (§4.1): one call of the capability adapter
`tier()`, as a transformer of the cached process-wide state.  Returns the
tier, the new state, and whether the external probe fired on this call. -/
def tierCall (raw : Int) (s : Option CapabilityTier) :
    CapabilityTier × Option CapabilityTier × Bool :=
  match s with
  | some t => (t, some t, false)
  | none => (mapRawToTier raw, some (mapRawToTier raw), true)

/-- A process trace of `n` successive `tier()` calls starting from the
uninitialized state: the list of returned tiers, the final cached state,
and how many times the external probe fired. -/
def runTier (raw : Int) : Nat → List CapabilityTier × Option CapabilityTier × Nat
  | 0 => ([], none, 0)
  | n + 1 =>
    let r := runTier raw n
    let c := tierCall raw r.2.1
    (r.1 ++ [c.1], c.2.1, r.2.2 + (if c.2.2 then 1 else 0))

/-- Modelled from the spec (§4.2, §7): the construction-time error naming the
violated invariant. -/
inductive InvalidDescriptor
  | nonPositiveDimension
  | strideBelowDimension
  | unrecognizedDtypeCombo
deriving DecidableEq

/-- Recognized combination float32×float32→float32. -/
def isF32Combo (d : ShapeTypeDescriptor) : Bool :=
  decide (d.dtypeA = Dtype.f32) && decide (d.dtypeB = Dtype.f32) &&
  decide (d.dtypeOut = Dtype.f32) && decide (d.dtypeComp = Dtype.f32)

/-- Recognized combination float64×float64→float64. -/
def isF64Combo (d : ShapeTypeDescriptor) : Bool :=
  decide (d.dtypeA = Dtype.f64) && decide (d.dtypeB = Dtype.f64) &&
  decide (d.dtypeOut = Dtype.f64) && decide (d.dtypeComp = Dtype.f64)

/-- Recognized combination bf16×bf16→float32 accumulate. -/
def isBf16Combo (d : ShapeTypeDescriptor) : Bool :=
  decide (d.dtypeA = Dtype.bf16) && decide (d.dtypeB = Dtype.bf16) &&
  decide (d.dtypeOut = Dtype.f32) && decide (d.dtypeComp = Dtype.f32)

/-- Modelled from the spec (§4.2): the recognized datatype combinations.
The spec also names int8×int8→int32 and uint8×int8→int32 accumulate, but
int32 is not a member of the spec's closed datatype enumeration, so those
two are not expressible as descriptors and are omitted. -/
def recognizedCombo (d : ShapeTypeDescriptor) : Bool :=
  isF32Combo d || isF64Combo d || isBf16Combo d

/-- Modelled from the spec (§4.2, §6): the validating descriptor
constructor, failing with the violated invariant: dimensions first, then
strides (each stride against its governing dimension: lda ≥ m, ldb ≥ k,
ldc ≥ m), then the datatype combination. -/
def descriptor_new (m n k lda ldb ldc : Int) (da db dout dcomp : Dtype) :
    Except InvalidDescriptor ShapeTypeDescriptor :=
  if m ≤ 0 ∨ n ≤ 0 ∨ k ≤ 0 then
    .error .nonPositiveDimension
  else if lda < m ∨ ldb < k ∨ ldc < m then
    .error .strideBelowDimension
  else if recognizedCombo ⟨m, n, k, lda, ldb, ldc, da, db, dout, dcomp⟩ then
    .ok ⟨m, n, k, lda, ldb, ldc, da, db, dout, dcomp⟩
  else
    .error .unrecognizedDtypeCombo

/-- Modelled from the spec (§4.3, §6): an acquired callable is either
generated machine code (an opaque code id) or the portable fallback routine
for float32 (the reference SGEMM path). -/
inductive Callable
  | generated (code : Nat)
  | fallbackSgemm
deriving DecidableEq

/-- Modelled from the spec (§3): a kernel handle owns the callable plus the
descriptor, flags and tier it was resolved for. -/
structure KernelHandle where
  callable : Callable
  desc : ShapeTypeDescriptor
  flags : DispatchFlags
  tier : CapabilityTier
deriving DecidableEq

/-- Modelled from the spec (§3): a cache entry is a resolved handle or a
permanent negative result. -/
inductive CacheEntry
  | resolved (h : KernelHandle)
  | permanentlyUnsupported
deriving DecidableEq

abbrev CacheKey := ShapeTypeDescriptor × DispatchFlags × CapabilityTier

abbrev Cache := List (CacheKey × CacheEntry)

/-- A record of one invocation of the external code-generation service:
the descriptor, flags and tier variant it was asked for (spec §6). -/
abbrev GenCall := ShapeTypeDescriptor × DispatchFlags × CapabilityTier

/-- Modelled from the spec (§6): the external code-generation service
`try_generate`, deterministic for fixed inputs; a model parameter. -/
abbrev Generator := ShapeTypeDescriptor → DispatchFlags → CapabilityTier → Option Nat

/-- Cache lookup. -/
def cacheFind (c : Cache) (key : CacheKey) : Option CacheEntry :=
  match c with
  | [] => none
  | (k2, e) :: rest => if k2 = key then some e else cacheFind rest key

/-- Modelled from the spec (§4.3): the minimum tier a combination supports —
bf16 accumulate needs the high tier, other combinations start at baseline. -/
def minTierFor (d : ShapeTypeDescriptor) : CapabilityTier :=
  if isBf16Combo d then .high else .baseline

/-- All tiers up to and including `cur`, in descending preference order. -/
def tiersDescFrom : CapabilityTier → List CapabilityTier
  | .baseline => [.baseline]
  | .mid => [.mid, .baseline]
  | .high => [.high, .mid, .baseline]
  | .top => [.top, .high, .mid, .baseline]

/-- Modelled from the spec (§4.3 step 2): the candidate tier variants for a
descriptor at the current tier, newest first, down to the minimum tier the
combination supports. -/
def candidatesFor (cur : CapabilityTier) (d : ShapeTypeDescriptor) :
    List CapabilityTier :=
  (tiersDescFrom cur).filter (fun t => decide ((minTierFor d).toNat ≤ t.toNat))

/-- Modelled from the spec (§4.3 step 3): try the candidate variants in
order, stopping at the first success; returns the outcome and the list of
variants actually handed to the generator. -/
def tryCandidates (gen : Generator) (d : ShapeTypeDescriptor)
    (f : DispatchFlags) : List CapabilityTier → Option Callable × List CapabilityTier
  | [] => (none, [])
  | v :: vs =>
    match gen d f v with
    | some code => (some (Callable.generated code), [v])
    | none =>
      let r := tryCandidates gen d f vs
      (r.1, v :: r.2)

/-- Modelled from the spec (§4.3, §4.4): one `resolve(descriptor, flags)`
call as a cache-state transformer: on hit return the cached entry, on miss
run the candidate loop, fall back to the portable float32 routine when it
exists, store the outcome, and report the generator invocations made. -/
def resolveStep (gen : Generator) (cur : CapabilityTier)
    (d : ShapeTypeDescriptor) (f : DispatchFlags) (cache : Cache) :
    CacheEntry × Cache × List GenCall :=
  match cacheFind cache (d, f, cur) with
  | some e => (e, cache, [])
  | none =>
    let tc := tryCandidates gen d f (candidatesFor cur d)
    let entry :=
      match tc.1 with
      | some c => CacheEntry.resolved ⟨c, d, f, cur⟩
      | none =>
        if isF32Combo d then
          CacheEntry.resolved ⟨Callable.fallbackSgemm, d, f, cur⟩
        else
          CacheEntry.permanentlyUnsupported
    (entry, ((d, f, cur), entry) :: cache, tc.2.map (fun v => (d, f, v)))

/-- A sequence of resolve calls threaded through the cache, accumulating
every generator invocation made. -/
def runResolve (gen : Generator) (cur : CapabilityTier) :
    List (ShapeTypeDescriptor × DispatchFlags) → Cache → Cache × List GenCall
  | [], cache => (cache, [])
  | (d, f) :: rest, cache =>
    let r := resolveStep gen cur d f cache
    let r2 := runResolve gen cur rest r.2.1
    (r2.1, r.2.2 ++ r2.2)

/-- Occurrence count of an element in a list. -/
def countOcc {α : Type} [DecidableEq α] : List α → α → Nat
  | [], _ => 0
  | a :: l, x => (if a = x then 1 else 0) + countOcc l x

/-- Inner product read pattern of the generated beta-zero GEMM code for
entry (i, j): A is m×k column-major with lda = m, B is k×n column-major
with ldb = k (the strides fixed by the acquisition constructors). -/
def dotRow (mem : Mem) (aP bP : Ptr) (m k i j : Nat) : Int :=
  (List.range k).foldl
    (fun acc l => acc + mem (aP + i + l * m) * mem (bP + l + j * k)) 0

/-- Modelled from the spec (§4.5, §6, §8): the semantics of the machine code
generated for an m×n×k beta-zero GEMM, and equally of the portable fallback
routine, as a memory transformer honoring the three-pointer contract: it
overwrites exactly the m·n cells of the output region (C is m×n column-major
with ldc = m) with the product of the left and right operand regions, and
reads only those operand regions. -/
def gemmKernelSem (m n k : Nat) (p : LibxsmmGemmParam) (mem : Mem) : Mem :=
  fun addr =>
    if p.c.primary ≤ addr ∧ addr - p.c.primary < m * n then
      dotRow mem p.a.primary p.b.primary m k
        ((addr - p.c.primary) % m) ((addr - p.c.primary) / m)
    else
      mem addr

/-- Modelled from the spec (§4.5, §4.6): invoking a resolved kernel handle
on the three operand pointers; both generated code and the portable fallback
compute the beta-zero GEMM of the shape the handle was resolved for, through
the same argument bundle `JitKernel::call` builds. -/
def KernelHandle.invoke (h : KernelHandle) (a b c : Ptr) (mem : Mem) : Mem :=
  gemmKernelSem h.desc.m.toNat h.desc.n.toNat h.desc.k.toNat
    (JitKernel.callParam a b c) mem

-- Concrete inputs used by the witness theorems.

/-- A 2×2×2 float32 descriptor with tight strides. -/
def d22 : ShapeTypeDescriptor :=
  ⟨2, 2, 2, 2, 2, 2, Dtype.f32, Dtype.f32, Dtype.f32, Dtype.f32⟩

/-- A 2×2×2 bf16-accumulate descriptor with tight strides. -/
def dBf22 : ShapeTypeDescriptor :=
  ⟨2, 2, 2, 2, 2, 2, Dtype.bf16, Dtype.bf16, Dtype.f32, Dtype.f32⟩

/-- Beta-zero flags, all other options off. -/
def flagsBeta0 : DispatchFlags := ⟨true, false, false, false⟩

/-- The fallback handle that resolution produces for `d22` at baseline tier
when the generator declines every variant. -/
def fb22 : KernelHandle :=
  ⟨Callable.fallbackSgemm, d22, flagsBeta0, CapabilityTier.baseline⟩

/-- A generator that declines every request. -/
def genNone : Generator := fun _ _ _ => none

/-- Concrete memory: the 2×2 identity at address 0 (column-major), the
matrix [[5, 7], [6, 8]] at address 10 (column-major: 5, 6, 7, 8), and
garbage 99 in the output region at address 20. -/
def mem2x2 : Mem := fun a =>
  if a = 0 then 1 else if a = 1 then 0 else if a = 2 then 0 else
  if a = 3 then 1 else if a = 10 then 5 else if a = 11 then 6 else
  if a = 12 then 7 else if a = 13 then 8 else 99

-- ============================================================================
-- Helper lemmas.
-- ============================================================================

theorem cacheFind_cons_self (key : CacheKey) (e : CacheEntry) (c : Cache) :
    cacheFind ((key, e) :: c) key = some e := by
  simp [cacheFind]

theorem cacheFind_cons_ne (key k2 : CacheKey) (e : CacheEntry) (c : Cache)
    (h : k2 ≠ key) : cacheFind ((k2, e) :: c) key = cacheFind c key := by
  simp [cacheFind, h]

theorem resolveStep_hit (gen : Generator) (cur : CapabilityTier)
    (d : ShapeTypeDescriptor) (f : DispatchFlags) (cache : Cache)
    (e : CacheEntry) (h : cacheFind cache (d, f, cur) = some e) :
    resolveStep gen cur d f cache = (e, cache, []) := by
  simp [resolveStep, h]

theorem resolveStep_cache_self (gen : Generator) (cur : CapabilityTier)
    (d : ShapeTypeDescriptor) (f : DispatchFlags) (cache : Cache) :
    cacheFind (resolveStep gen cur d f cache).2.1 (d, f, cur)
      = some (resolveStep gen cur d f cache).1 := by
  unfold resolveStep
  cases h : cacheFind cache (d, f, cur) with
  | some e => simp [h]
  | none => simp [h, cacheFind_cons_self]

theorem resolveStep_isSome_mono (gen : Generator) (cur : CapabilityTier)
    (d : ShapeTypeDescriptor) (f : DispatchFlags) (cache : Cache)
    (key : CacheKey) (h : (cacheFind cache key).isSome) :
    (cacheFind (resolveStep gen cur d f cache).2.1 key).isSome := by
  by_cases hk : key = (d, f, cur)
  · subst hk; rw [resolveStep_cache_self]; rfl
  · unfold resolveStep
    cases hc : cacheFind cache (d, f, cur) with
    | some e => simpa [hc] using h
    | none =>
      simp only [hc]
      rw [cacheFind_cons_ne _ _ _ _ (Ne.symm hk)]
      exact h

theorem tryCandidates_mem (gen : Generator) (d : ShapeTypeDescriptor)
    (f : DispatchFlags) :
    ∀ (vs : List CapabilityTier) (v : CapabilityTier),
      v ∈ (tryCandidates gen d f vs).2 → v ∈ vs := by
  intro vs
  induction vs with
  | nil => intro v hv; simp [tryCandidates] at hv
  | cons a l ih =>
    intro v hv
    unfold tryCandidates at hv
    cases hg : gen d f a with
    | some code => rw [hg] at hv; simp at hv; simp [hv]
    | none =>
      rw [hg] at hv
      simp at hv
      rcases hv with h1 | h2
      · simp [h1]
      · exact List.mem_cons_of_mem _ (ih v h2)

theorem countOcc_append {α : Type} [DecidableEq α] (l1 l2 : List α) (x : α) :
    countOcc (l1 ++ l2) x = countOcc l1 x + countOcc l2 x := by
  induction l1 with
  | nil => simp [countOcc]
  | cons a l ih => simp [countOcc, ih, Nat.add_assoc]

theorem countOcc_eq_zero_of_not_mem {α : Type} [DecidableEq α]
    {l : List α} {x : α} (h : x ∉ l) : countOcc l x = 0 := by
  induction l with
  | nil => rfl
  | cons a l ih =>
    rw [List.mem_cons] at h
    push_neg at h
    rw [countOcc, if_neg (fun hax => h.1 hax.symm), ih h.2]

theorem tryCandidates_countOcc_le (gen : Generator) (d : ShapeTypeDescriptor)
    (f : DispatchFlags) (v : CapabilityTier) :
    ∀ (vs : List CapabilityTier), vs.Nodup →
      countOcc (tryCandidates gen d f vs).2 v ≤ 1 := by
  intro vs
  induction vs with
  | nil => intro _; simp [tryCandidates, countOcc]
  | cons a l ih =>
    intro hnd
    rw [List.nodup_cons] at hnd
    unfold tryCandidates
    cases hg : gen d f a with
    | some code =>
      simp only [countOcc]
      split <;> simp
    | none =>
      simp only [countOcc]
      by_cases hav : a = v
      · subst hav
        have hz : countOcc (tryCandidates gen d f l).2 a = 0 :=
          countOcc_eq_zero_of_not_mem
            (fun hmem => hnd.1 (tryCandidates_mem gen d f l a hmem))
        simp [hz]
      · simp only [if_neg hav, Nat.zero_add]
        exact ih hnd.2

theorem tiersDescFrom_nodup (cur : CapabilityTier) :
    (tiersDescFrom cur).Nodup := by
  cases cur <;> decide

theorem candidatesFor_nodup (cur : CapabilityTier) (d : ShapeTypeDescriptor) :
    (candidatesFor cur d).Nodup :=
  (tiersDescFrom_nodup cur).filter _

theorem countOcc_map_triple_eq (d : ShapeTypeDescriptor) (f : DispatchFlags)
    (v0 : CapabilityTier) :
    ∀ l : List CapabilityTier,
      countOcc (l.map (fun v => ((d, f, v) : GenCall))) (d, f, v0)
        = countOcc l v0 := by
  intro l
  induction l with
  | nil => rfl
  | cons a l ih =>
    by_cases h : a = v0 <;> simp [countOcc, ih, h, Prod.ext_iff]

theorem resolveStep_calls_shape (gen : Generator) (cur : CapabilityTier)
    (d : ShapeTypeDescriptor) (f : DispatchFlags) (cache : Cache) :
    ∀ t ∈ (resolveStep gen cur d f cache).2.2, ∃ v, t = ((d, f, v) : GenCall) := by
  intro t ht
  unfold resolveStep at ht
  cases hc : cacheFind cache (d, f, cur) with
  | some e => rw [hc] at ht; simp at ht
  | none =>
    rw [hc] at ht
    simp only [List.mem_map] at ht
    obtain ⟨v, _, rfl⟩ := ht
    exact ⟨v, rfl⟩

theorem resolveStep_countOcc_ne (gen : Generator) (cur : CapabilityTier)
    (d d0 : ShapeTypeDescriptor) (f f0 : DispatchFlags) (v0 : CapabilityTier)
    (cache : Cache) (hne : ¬(d0 = d ∧ f0 = f)) :
    countOcc (resolveStep gen cur d f cache).2.2 ((d0, f0, v0) : GenCall) = 0 := by
  apply countOcc_eq_zero_of_not_mem
  intro hmem
  obtain ⟨v, hv⟩ := resolveStep_calls_shape gen cur d f cache _ hmem
  rw [Prod.ext_iff, Prod.ext_iff] at hv
  exact hne ⟨hv.1, hv.2.1⟩

theorem resolveStep_miss_parts (gen : Generator) (cur : CapabilityTier)
    (d : ShapeTypeDescriptor) (f : DispatchFlags) (cache : Cache)
    (h : cacheFind cache (d, f, cur) = none) :
    (resolveStep gen cur d f cache).2.2
      = (tryCandidates gen d f (candidatesFor cur d)).2.map
          (fun v => ((d, f, v) : GenCall)) := by
  simp [resolveStep, h]

theorem runResolve_count_le (gen : Generator) (cur : CapabilityTier) :
    ∀ (reqs : List (ShapeTypeDescriptor × DispatchFlags)) (cache : Cache)
      (t : GenCall),
      countOcc (runResolve gen cur reqs cache).2 t ≤
        (if (cacheFind cache (t.1, t.2.1, cur)).isSome then 0 else 1) := by
  intro reqs
  induction reqs with
  | nil =>
    intro cache t
    simp [runResolve, countOcc]
  | cons df rest ih =>
    intro cache t
    obtain ⟨d, f⟩ := df
    obtain ⟨d0, f0, v0⟩ := t
    simp only [runResolve]
    rw [countOcc_append]
    by_cases hs : (cacheFind cache (d0, f0, cur)).isSome
    · -- already cached: no invocation can mention this key's pair again
      have hrest :
          countOcc (runResolve gen cur rest
            (resolveStep gen cur d f cache).2.1).2 (d0, f0, v0) = 0 := by
        have := ih (resolveStep gen cur d f cache).2.1 (d0, f0, v0)
        rw [if_pos (resolveStep_isSome_mono gen cur d f cache _ hs)] at this
        exact Nat.le_zero.mp this
      have hstep :
          countOcc (resolveStep gen cur d f cache).2.2 (d0, f0, v0) = 0 := by
        by_cases hdf : d0 = d ∧ f0 = f
        · obtain ⟨rfl, rfl⟩ := hdf
          obtain ⟨e, he⟩ := Option.isSome_iff_exists.mp hs
          rw [resolveStep_hit gen cur d0 f0 cache e he]
          rfl
        · exact resolveStep_countOcc_ne gen cur d d0 f f0 v0 cache hdf
      simp [hstep, hrest, hs]
    · rw [if_neg hs]
      by_cases hdf : d0 = d ∧ f0 = f
      · obtain ⟨rfl, rfl⟩ := hdf
        have hc : cacheFind cache (d0, f0, cur) = none :=
          Option.not_isSome_iff_eq_none.mp hs
        have hstep :
            countOcc (resolveStep gen cur d0 f0 cache).2.2 (d0, f0, v0) ≤ 1 := by
          rw [resolveStep_miss_parts gen cur d0 f0 cache hc,
            countOcc_map_triple_eq]
          exact tryCandidates_countOcc_le gen d0 f0 v0 _
            (candidatesFor_nodup cur d0)
        have hrest :
            countOcc (runResolve gen cur rest
              (resolveStep gen cur d0 f0 cache).2.1).2 (d0, f0, v0) = 0 := by
          have hsome : (cacheFind (resolveStep gen cur d0 f0 cache).2.1
              (d0, f0, cur)).isSome := by
            rw [resolveStep_cache_self]; rfl
          have := ih (resolveStep gen cur d0 f0 cache).2.1 (d0, f0, v0)
          rw [if_pos hsome] at this
          exact Nat.le_zero.mp this
        omega
      · have hstep := resolveStep_countOcc_ne gen cur d d0 f f0 v0 cache hdf
        have hrest := ih (resolveStep gen cur d f cache).2.1 (d0, f0, v0)
        dsimp only at hrest
        have hb : (if (cacheFind (resolveStep gen cur d f cache).2.1
            (d0, f0, cur)).isSome then 0 else 1) ≤ 1 := by
          split <;> omega
        omega

theorem runTier_eq (raw : Int) :
    ∀ n : Nat, runTier raw n =
      (List.replicate n (mapRawToTier raw),
       if n = 0 then none else some (mapRawToTier raw),
       if n = 0 then 0 else 1) := by
  intro n
  induction n with
  | zero => rfl
  | succ n ih =>
    rw [runTier, ih]
    cases n with
    | zero => simp [tierCall, List.replicate]
    | succ n2 => simp [tierCall, List.replicate_succ']

theorem foldl_add_congr (l : List Nat) (f g : Nat → Int)
    (h : ∀ x ∈ l, f x = g x) :
    ∀ init : Int,
      l.foldl (fun acc x => acc + f x) init
        = l.foldl (fun acc x => acc + g x) init := by
  induction l with
  | nil => intro init; rfl
  | cons a l ih =>
    intro init
    simp only [List.foldl_cons]
    rw [h a (List.mem_cons_self a l)]
    exact ih (fun x hx => h x (List.mem_cons_of_mem a hx)) _

theorem gemmKernelSem_outside (m n k : Nat) (p : LibxsmmGemmParam) (mem : Mem)
    (addr : Nat) (h : ¬(p.c.primary ≤ addr ∧ addr - p.c.primary < m * n)) :
    gemmKernelSem m n k p mem addr = mem addr := by
  simp only [gemmKernelSem, if_neg h]

theorem dotRow_congr (mem1 mem2 : Mem) (aP bP m k i j : Nat)
    (h : ∀ l, l < k →
      mem1 (aP + i + l * m) = mem2 (aP + i + l * m) ∧
      mem1 (bP + l + j * k) = mem2 (bP + l + j * k)) :
    dotRow mem1 aP bP m k i j = dotRow mem2 aP bP m k i j := by
  unfold dotRow
  have := foldl_add_congr (List.range k)
    (fun l => mem1 (aP + i + l * m) * mem1 (bP + l + j * k))
    (fun l => mem2 (aP + i + l * m) * mem2 (bP + l + j * k))
    (fun l hl => by
      obtain ⟨h1, h2⟩ := h l (List.mem_range.mp hl)
      dsimp only
      rw [h1, h2]) 0
  exact this

theorem isBf16Combo_not_f32 (d : ShapeTypeDescriptor)
    (h : isBf16Combo d = true) : isF32Combo d = false := by
  unfold isBf16Combo at h
  simp only [Bool.and_eq_true, decide_eq_true_eq] at h
  unfold isF32Combo
  simp [h.1.1.1]

theorem candidatesFor_bf16_low (cur : CapabilityTier) (d : ShapeTypeDescriptor)
    (hbf : isBf16Combo d = true)
    (hlow : cur.toNat < CapabilityTier.high.toNat) :
    candidatesFor cur d = [] := by
  unfold candidatesFor minTierFor
  rw [hbf]
  cases cur with
  | baseline => rfl
  | mid => rfl
  | high => exact absurd hlow (by decide)
  | top => exact absurd hlow (by decide)

theorem tryCandidates_all_none (gen : Generator) (d : ShapeTypeDescriptor)
    (f : DispatchFlags) (h : ∀ v, gen d f v = none) :
    ∀ vs : List CapabilityTier, tryCandidates gen d f vs = (none, vs) := by
  intro vs
  induction vs with
  | nil => rfl
  | cons a l ih =>
    unfold tryCandidates
    rw [h a, ih]

theorem gemmKernelSem_idem (m n k : Nat) (p : LibxsmmGemmParam) (mem : Mem)
    (hA : ∀ oc, oc < m * n → ∀ oa, oa < m * k →
      p.c.primary + oc ≠ p.a.primary + oa)
    (hB : ∀ oc, oc < m * n → ∀ ob, ob < k * n →
      p.c.primary + oc ≠ p.b.primary + ob) :
    gemmKernelSem m n k p (gemmKernelSem m n k p mem)
      = gemmKernelSem m n k p mem := by
  funext addr
  by_cases h : p.c.primary ≤ addr ∧ addr - p.c.primary < m * n
  · have hL : gemmKernelSem m n k p (gemmKernelSem m n k p mem) addr
        = dotRow (gemmKernelSem m n k p mem) p.a.primary p.b.primary m k
            ((addr - p.c.primary) % m) ((addr - p.c.primary) / m) := by
      simp only [gemmKernelSem, if_pos h]
    have hR : gemmKernelSem m n k p mem addr
        = dotRow mem p.a.primary p.b.primary m k
            ((addr - p.c.primary) % m) ((addr - p.c.primary) / m) := by
      simp only [gemmKernelSem, if_pos h]
    rw [hL, hR]
    have hmpos : 0 < m := by
      rcases Nat.eq_zero_or_pos m with hm | hm
      · exfalso; rw [hm, Nat.zero_mul] at h; exact Nat.not_lt_zero _ h.2
      · exact hm
    have hi : (addr - p.c.primary) % m < m := Nat.mod_lt _ hmpos
    have hj : (addr - p.c.primary) / m < n := by
      rw [Nat.div_lt_iff_lt_mul hmpos]
      calc addr - p.c.primary < m * n := h.2
        _ = n * m := Nat.mul_comm m n
    apply dotRow_congr
    intro l hl
    constructor
    · apply gemmKernelSem_outside
      intro hin
      have hoa : (addr - p.c.primary) % m + l * m < m * k := by
        calc (addr - p.c.primary) % m + l * m < m + l * m := by omega
          _ = (l + 1) * m := by ring
          _ ≤ k * m := Nat.mul_le_mul_right m hl
          _ = m * k := Nat.mul_comm k m
      apply hA (p.a.primary + ((addr - p.c.primary) % m) + l * m - p.c.primary)
        hin.2 ((addr - p.c.primary) % m + l * m) hoa
      rw [Nat.add_sub_cancel' hin.1]
      exact Nat.add_assoc _ _ _
    · apply gemmKernelSem_outside
      intro hin
      have hob : l + ((addr - p.c.primary) / m) * k < k * n := by
        calc l + ((addr - p.c.primary) / m) * k < k + ((addr - p.c.primary) / m) * k := by omega
          _ = ((addr - p.c.primary) / m + 1) * k := by ring
          _ ≤ n * k := Nat.mul_le_mul_right k hj
          _ = k * n := Nat.mul_comm n k
      apply hB (p.b.primary + l + ((addr - p.c.primary) / m) * k - p.c.primary)
        hin.2 (l + ((addr - p.c.primary) / m) * k) hob
      rw [Nat.add_sub_cancel' hin.1]
      exact Nat.add_assoc _ _ _
  · rw [gemmKernelSem_outside m n k p _ addr h]

-- ============================================================================
-- Claim theorems.
-- ============================================================================

/-- C1: resolving the same (descriptor, flags) a second time returns exactly
the entry the first call cached — including when that entry is the permanent
Unsupported result — leaves the cache unchanged and performs no generator
invocation; and across any sequence of resolve calls from the empty cache,
the code-generation service is invoked at most once per
(descriptor, flags, tier-variant) triple (single-flight, in the sequential
state-passing model of the cache). -/
theorem resolve_single_flight :
    (∀ (gen : Generator) (cur : CapabilityTier) (d : ShapeTypeDescriptor)
        (f : DispatchFlags) (cache : Cache),
      resolveStep gen cur d f (resolveStep gen cur d f cache).2.1
        = ((resolveStep gen cur d f cache).1,
           (resolveStep gen cur d f cache).2.1, []))
    ∧ (∀ (gen : Generator) (cur : CapabilityTier)
        (reqs : List (ShapeTypeDescriptor × DispatchFlags)) (t : GenCall),
      countOcc (runResolve gen cur reqs []).2 t ≤ 1) := by
  constructor
  · intro gen cur d f cache
    exact resolveStep_hit gen cur d f _ _ (resolveStep_cache_self gen cur d f cache)
  · intro gen cur reqs t
    have hb := runResolve_count_le gen cur reqs [] t
    simpa [cacheFind] using hb

/-- C2: for a float32×float32→float32 descriptor whose key is uncached, if
the generator declines every tier variant, resolve still succeeds with the
handle wrapping the portable fallback routine; and invoking that fallback
handle on a 2×2 identity-times-matrix input writes the mathematically
correct product into the output region. -/
theorem resolve_f32_fallback :
    (∀ (gen : Generator) (cur : CapabilityTier) (d : ShapeTypeDescriptor)
        (f : DispatchFlags) (cache : Cache),
      isF32Combo d = true →
      (∀ v, gen d f v = none) →
      cacheFind cache (d, f, cur) = none →
      (resolveStep gen cur d f cache).1
        = CacheEntry.resolved ⟨Callable.fallbackSgemm, d, f, cur⟩)
    ∧ ((resolveStep genNone CapabilityTier.baseline d22 flagsBeta0 []).1
        = CacheEntry.resolved fb22
      ∧ fb22.invoke 0 10 20 mem2x2 20 = 5
      ∧ fb22.invoke 0 10 20 mem2x2 21 = 6
      ∧ fb22.invoke 0 10 20 mem2x2 22 = 7
      ∧ fb22.invoke 0 10 20 mem2x2 23 = 8) := by
  constructor
  · intro gen cur d f cache hf32 hgen hmiss
    have ht := tryCandidates_all_none gen d f hgen (candidatesFor cur d)
    simp [resolveStep, hmiss, ht, hf32]
  · refine ⟨by decide, by decide, by decide, by decide, by decide⟩

/-- C2 witness: the general fallback statement applied at the concrete
2×2×2 float32 descriptor, baseline tier, empty cache and the generator that
declines everything. -/
theorem resolve_f32_fallback_witness :
    (resolveStep genNone CapabilityTier.baseline d22 flagsBeta0 []).1
      = CacheEntry.resolved fb22 :=
  resolve_f32_fallback.1 genNone CapabilityTier.baseline d22 flagsBeta0 []
    (by decide) (fun v => rfl) rfl

/-- C3: the descriptor constructor fails, naming the violated invariant:
whenever any invariant is violated it fails; non-positive dimensions yield
the dimension error; a stride below its governing dimension (with valid
dimensions) yields the stride error; an unrecognized datatype combination
(with valid dimensions and strides) yields the combination error; and the
concrete call with m = -1 fails citing the dimension invariant. -/
theorem descriptor_new_validates :
    (∀ (m n k lda ldb ldc : Int) (da db dout dcomp : Dtype),
        (m ≤ 0 ∨ n ≤ 0 ∨ k ≤ 0 ∨ lda < m ∨ ldb < k ∨ ldc < m ∨
          recognizedCombo ⟨m, n, k, lda, ldb, ldc, da, db, dout, dcomp⟩ = false) →
        ∃ e, descriptor_new m n k lda ldb ldc da db dout dcomp
          = Except.error e)
    ∧ (∀ (m n k lda ldb ldc : Int) (da db dout dcomp : Dtype),
        (m ≤ 0 ∨ n ≤ 0 ∨ k ≤ 0) →
        descriptor_new m n k lda ldb ldc da db dout dcomp
          = Except.error InvalidDescriptor.nonPositiveDimension)
    ∧ (∀ (m n k lda ldb ldc : Int) (da db dout dcomp : Dtype),
        0 < m → 0 < n → 0 < k → (lda < m ∨ ldb < k ∨ ldc < m) →
        descriptor_new m n k lda ldb ldc da db dout dcomp
          = Except.error InvalidDescriptor.strideBelowDimension)
    ∧ (∀ (m n k lda ldb ldc : Int) (da db dout dcomp : Dtype),
        0 < m → 0 < n → 0 < k → m ≤ lda → k ≤ ldb → m ≤ ldc →
        recognizedCombo ⟨m, n, k, lda, ldb, ldc, da, db, dout, dcomp⟩ = false →
        descriptor_new m n k lda ldb ldc da db dout dcomp
          = Except.error InvalidDescriptor.unrecognizedDtypeCombo)
    ∧ descriptor_new (-1) 64 64 64 64 64 Dtype.f32 Dtype.f32 Dtype.f32 Dtype.f32
        = Except.error InvalidDescriptor.nonPositiveDimension := by
  refine ⟨?_, ?_, ?_, ?_, rfl⟩
  · intro m n k lda ldb ldc da db dout dcomp hv
    unfold descriptor_new
    by_cases h1 : m ≤ 0 ∨ n ≤ 0 ∨ k ≤ 0
    · rw [if_pos h1]; exact ⟨_, rfl⟩
    · rw [if_neg h1]
      by_cases h2 : lda < m ∨ ldb < k ∨ ldc < m
      · rw [if_pos h2]; exact ⟨_, rfl⟩
      · rw [if_neg h2]
        have h3 : recognizedCombo ⟨m, n, k, lda, ldb, ldc, da, db, dout, dcomp⟩ = false := by
          push_neg at h1 h2
          rcases hv with h | h | h | h | h | h | h
          · omega
          · omega
          · omega
          · omega
          · omega
          · omega
          · exact h
        rw [if_neg (by simp [h3])]
        exact ⟨_, rfl⟩
  · intro m n k lda ldb ldc da db dout dcomp h1
    unfold descriptor_new
    rw [if_pos h1]
  · intro m n k lda ldb ldc da db dout dcomp hm hn hk h2
    unfold descriptor_new
    rw [if_neg (by omega), if_pos h2]
  · intro m n k lda ldb ldc da db dout dcomp hm hn hk ha hb hc hrec
    unfold descriptor_new
    rw [if_neg (by omega), if_neg (by omega), if_neg (by simp [hrec])]

/-- C3 witness: the three failure modes at concrete inputs. -/
theorem descriptor_new_validates_witness :
    descriptor_new (-1) 64 64 64 64 64 Dtype.f32 Dtype.f32 Dtype.f32 Dtype.f32
        = Except.error InvalidDescriptor.nonPositiveDimension
    ∧ descriptor_new 4 4 4 2 4 4 Dtype.f32 Dtype.f32 Dtype.f32 Dtype.f32
        = Except.error InvalidDescriptor.strideBelowDimension
    ∧ descriptor_new 4 4 4 4 4 4 Dtype.f16 Dtype.f16 Dtype.f16 Dtype.f16
        = Except.error InvalidDescriptor.unrecognizedDtypeCombo :=
  ⟨descriptor_new_validates.2.1 (-1) 64 64 64 64 64 _ _ _ _ (by decide),
   descriptor_new_validates.2.2.1 4 4 4 2 4 4 _ _ _ _ (by decide) (by decide)
     (by decide) (by decide),
   descriptor_new_validates.2.2.2.1 4 4 4 4 4 4 _ _ _ _ (by decide) (by decide)
     (by decide) (by decide) (by decide) (by decide) (by decide)⟩

/-- C4: for a bf16×bf16→float32 descriptor, specialized generation is
attempted only when the current tier is at least the high tier: below the
high tier an uncached resolve makes no generator invocation and records the
permanent Unsupported result (no fallback exists for this combination), and
any resolve that does invoke the generator for such a descriptor must be
running at tier ≥ high. -/
theorem bf16_requires_high_tier :
    (∀ (gen : Generator) (cur : CapabilityTier) (d : ShapeTypeDescriptor)
        (f : DispatchFlags) (cache : Cache),
      isBf16Combo d = true →
      cur.toNat < CapabilityTier.high.toNat →
      cacheFind cache (d, f, cur) = none →
      (resolveStep gen cur d f cache).1 = CacheEntry.permanentlyUnsupported
        ∧ (resolveStep gen cur d f cache).2.2 = [])
    ∧ (∀ (gen : Generator) (cur : CapabilityTier) (d : ShapeTypeDescriptor)
        (f : DispatchFlags) (cache : Cache),
      isBf16Combo d = true →
      (resolveStep gen cur d f cache).2.2 ≠ [] →
      CapabilityTier.high.toNat ≤ cur.toNat) := by
  constructor
  · intro gen cur d f cache hbf hlow hmiss
    haveI := Classical.propDecidable
    have hc := candidatesFor_bf16_low cur d hbf hlow
    have hf32 := isBf16Combo_not_f32 d hbf
    constructor <;> simp [resolveStep, hmiss, hc, tryCandidates, hf32]
  · intro gen cur d f cache hbf hne
    by_contra hlt
    push_neg at hlt
    cases hm : cacheFind cache (d, f, cur) with
    | some e => exact hne (by rw [resolveStep_hit gen cur d f cache e hm])
    | none =>
      have hc := candidatesFor_bf16_low cur d hbf hlt
      exact hne (by simp [resolveStep, hm, hc, tryCandidates])

/-- C4 witness: a bf16 descriptor at baseline tier with an uncached key and
a generator that would gladly accept: no invocation happens and the result
is the permanent Unsupported entry. -/
theorem bf16_requires_high_tier_witness :
    (resolveStep (fun _ _ _ => some 7) CapabilityTier.baseline dBf22
        flagsBeta0 []).1 = CacheEntry.permanentlyUnsupported
    ∧ (resolveStep (fun _ _ _ => some 7) CapabilityTier.baseline dBf22
        flagsBeta0 []).2.2 = [] :=
  bf16_requires_high_tier.1 (fun _ _ _ => some 7) CapabilityTier.baseline
    dBf22 flagsBeta0 [] (by decide) (by decide) rfl

/-- C5: the capability adapter performs the external probe exactly once per
process: once the cached state is set, every call returns it without firing
the probe; over any trace of n calls from the uninitialized state the probe
fires at most once (exactly once as soon as there is a call), and every
returned tier equals the value determined by the first probe. -/
theorem tier_probe_once :
    (∀ (raw : Int) (t : CapabilityTier),
      tierCall raw (some t) = (t, some t, false))
    ∧ (∀ (raw : Int) (n : Nat),
      (runTier raw n).2.2 ≤ 1
      ∧ (1 ≤ n → (runTier raw n).2.2 = 1)
      ∧ (∀ v ∈ (runTier raw n).1, v = mapRawToTier raw)) := by
  constructor
  · intro raw t; rfl
  · intro raw n
    rw [runTier_eq raw n]
    refine ⟨?_, ?_, ?_⟩
    · cases n <;> simp
    · intro h1
      have hn : ¬ n = 0 := by omega
      simp [hn]
    · intro v hv
      exact List.eq_of_mem_replicate hv

/-- C5 witness: three calls with the SPR architecture id fire the probe
exactly once, and every returned value is the top tier. -/
theorem tier_probe_once_witness :
    (1 ≤ 3 ∧ (runTier 1104 3).2.2 = 1)
    ∧ (CapabilityTier.top ∈ (runTier 1104 3).1
        ∧ CapabilityTier.top = mapRawToTier 1104) :=
  ⟨⟨by decide, (tier_probe_once.2 1104 3).2.1 (by decide)⟩,
   ⟨by decide, (tier_probe_once.2 1104 3).2.2 CapabilityTier.top (by decide)⟩⟩

/-- C6 counterexample: the source handle type `JitKernel` stores only the
code pointer, so two handles acquired for different descriptors (2×2×2 and
3×3×3) from a generator returning the same code pointer are equal, and no
function on handles can recover the descriptor a handle was resolved for —
refuting the claim that the handle retains the descriptor, flags and tier
for diagnostics. -/
theorem jitkernel_retains_descriptor_false :
    JitKernel.f32_gemm (fun _ _ _ => some 7) 2 2 2
      = JitKernel.f32_gemm (fun _ _ _ => some 7) 3 3 3
    ∧ ¬ ∃ mOf : JitKernel → Int,
        ∀ (dispatch : DispatchFn) (m n k : Int) (h : JitKernel),
          JitKernel.f32_gemm dispatch m n k = some h → mOf h = m := by
  constructor
  · rfl
  · rintro ⟨mOf, hm⟩
    have h2 := hm (fun _ _ _ => some 7) 2 2 2 ⟨7⟩ rfl
    have h3 := hm (fun _ _ _ => some 7) 3 3 3 ⟨7⟩ rfl
    rw [h2] at h3
    exact absurd h3 (by decide)

/-- C6 amended: a successfully resolved handle retains only the opaque
callable: its single field is exactly the code pointer the generator
returned, and any two handles with the same code pointer are equal — the
descriptor, flags and tier are not retained on the handle. -/
theorem jitkernel_retains_only_callable :
    ∀ (dispatch : DispatchFn) (m n k : Int) (h : JitKernel),
      JitKernel.f32_gemm dispatch m n k = some h →
      (dispatch (libxsmm_create_gemm_shape m n k m k m
          LIBXSMM_DATATYPE_F32 LIBXSMM_DATATYPE_F32
          LIBXSMM_DATATYPE_F32 LIBXSMM_DATATYPE_F32)
        LIBXSMM_GEMM_FLAG_BETA_0 0 = some h.kernel)
      ∧ (∀ h2 : JitKernel, h2.kernel = h.kernel → h2 = h) := by
  intro dispatch m n k h hres
  simp only [JitKernel.f32_gemm] at hres
  constructor
  · cases hd : dispatch (libxsmm_create_gemm_shape m n k m k m
        LIBXSMM_DATATYPE_F32 LIBXSMM_DATATYPE_F32
        LIBXSMM_DATATYPE_F32 LIBXSMM_DATATYPE_F32)
        LIBXSMM_GEMM_FLAG_BETA_0 0 with
    | none => rw [hd] at hres; simp at hres
    | some code =>
      rw [hd] at hres
      simp at hres
      rw [← hres]
  · intro h2 hk
    cases h2
    cases h
    simp_all

/-- C6 amended witness: the amended statement at a concrete generator and
shape. -/
theorem jitkernel_retains_only_callable_witness :
    (fun (_ : LibxsmmGemmShape) (_ : Nat) (_ : Nat) => (some 7 : Option Nat))
        (libxsmm_create_gemm_shape 2 2 2 2 2 2
          LIBXSMM_DATATYPE_F32 LIBXSMM_DATATYPE_F32
          LIBXSMM_DATATYPE_F32 LIBXSMM_DATATYPE_F32)
        LIBXSMM_GEMM_FLAG_BETA_0 0 = some (JitKernel.mk 7).kernel :=
  (jitkernel_retains_only_callable (fun _ _ _ => some 7) 2 2 2 ⟨7⟩ rfl).1

/-- C7: every invocation forwards exactly the argument bundle built by
`JitKernel::call`: the auxiliary operator-state argument has all four
pointer fields null, and each caller-supplied operand pointer sits in the
primary slot of its operand argument with every other slot null. -/
theorem call_zeroes_aux_and_forwards :
    ∀ (sem : Nat → LibxsmmGemmParam → Mem → Mem) (h : JitKernel)
      (a b c : Ptr) (mem : Mem),
      JitKernel.call sem h a b c mem
        = sem h.kernel (JitKernel.callParam a b c) mem
      ∧ (JitKernel.callParam a b c).op.primary = nullPtr
      ∧ (JitKernel.callParam a b c).op.secondary = nullPtr
      ∧ (JitKernel.callParam a b c).op.tertiary = nullPtr
      ∧ (JitKernel.callParam a b c).op.quaternary = nullPtr
      ∧ (JitKernel.callParam a b c).a.primary = a
      ∧ (JitKernel.callParam a b c).a.secondary = nullPtr
      ∧ (JitKernel.callParam a b c).a.tertiary = nullPtr
      ∧ (JitKernel.callParam a b c).a.quaternary = nullPtr
      ∧ (JitKernel.callParam a b c).a.quinary = nullPtr
      ∧ (JitKernel.callParam a b c).a.senary = nullPtr
      ∧ (JitKernel.callParam a b c).b.primary = b
      ∧ (JitKernel.callParam a b c).b.secondary = nullPtr
      ∧ (JitKernel.callParam a b c).b.tertiary = nullPtr
      ∧ (JitKernel.callParam a b c).b.quaternary = nullPtr
      ∧ (JitKernel.callParam a b c).b.quinary = nullPtr
      ∧ (JitKernel.callParam a b c).b.senary = nullPtr
      ∧ (JitKernel.callParam a b c).c.primary = c
      ∧ (JitKernel.callParam a b c).c.secondary = nullPtr
      ∧ (JitKernel.callParam a b c).c.tertiary = nullPtr
      ∧ (JitKernel.callParam a b c).c.quaternary = nullPtr
      ∧ (JitKernel.callParam a b c).c.quinary = nullPtr
      ∧ (JitKernel.callParam a b c).c.senary = nullPtr :=
  fun _ _ _ _ _ _ =>
    ⟨rfl, rfl, rfl, rfl, rfl, rfl, rfl, rfl, rfl, rfl, rfl, rfl, rfl, rfl,
     rfl, rfl, rfl, rfl, rfl, rfl, rfl, rfl, rfl⟩

/-- C8: under the modelled kernel semantics, invoking a handle writes
nothing outside the caller-supplied output region; when the operand regions
do not overlap the output region, invoking the same handle a second time
with the same buffers reproduces the state bit for bit; and the behaviour
depends on nothing in the handle beyond its immutable code-pointer field
(no hidden mutable state). -/
theorem invoke_idempotent_and_frame :
    ∀ (m n k : Nat) (h : JitKernel) (aP bP cP : Ptr) (mem : Mem),
      (∀ oc, oc < m * n → ∀ oa, oa < m * k → cP + oc ≠ aP + oa) →
      (∀ oc, oc < m * n → ∀ ob, ob < k * n → cP + oc ≠ bP + ob) →
      (∀ addr, ¬(cP ≤ addr ∧ addr - cP < m * n) →
        JitKernel.call (fun _ => gemmKernelSem m n k) h aP bP cP mem addr
          = mem addr)
      ∧ JitKernel.call (fun _ => gemmKernelSem m n k) h aP bP cP
          (JitKernel.call (fun _ => gemmKernelSem m n k) h aP bP cP mem)
        = JitKernel.call (fun _ => gemmKernelSem m n k) h aP bP cP mem
      ∧ (∀ h2 : JitKernel,
          JitKernel.call (fun _ => gemmKernelSem m n k) h2 aP bP cP mem
            = JitKernel.call (fun _ => gemmKernelSem m n k) h aP bP cP mem) := by
  intro m n k h aP bP cP mem hA hB
  refine ⟨?_, ?_, ?_⟩
  · intro addr hout
    exact gemmKernelSem_outside m n k (JitKernel.callParam aP bP cP) mem addr hout
  · exact gemmKernelSem_idem m n k (JitKernel.callParam aP bP cP) mem hA hB
  · intro h2
    rfl

/-- C8 witness: the idempotence statement at a concrete 1×1×1 shape with
disjoint operand and output cells. -/
theorem invoke_idempotent_and_frame_witness :
    ((∀ oc, oc < 1 * 1 → ∀ oa, oa < 1 * 1 → 2 + oc ≠ 0 + oa)
      ∧ (∀ oc, oc < 1 * 1 → ∀ ob, ob < 1 * 1 → 2 + oc ≠ 1 + ob))
    ∧ JitKernel.call (fun _ => gemmKernelSem 1 1 1) ⟨7⟩ 0 1 2
        (JitKernel.call (fun _ => gemmKernelSem 1 1 1) ⟨7⟩ 0 1 2 (fun _ => 5))
      = JitKernel.call (fun _ => gemmKernelSem 1 1 1) ⟨7⟩ 0 1 2 (fun _ => 5) :=
  ⟨⟨by decide, by decide⟩,
   (invoke_idempotent_and_frame 1 1 1 ⟨7⟩ 0 1 2 (fun _ => 5)
     (by decide) (by decide)).2.1⟩

/-- C9: both kernel-acquisition constructors hand the code-generation
service a shape whose leading strides are fixed from the dimensions —
lda = m, ldb = k, ldc = m — rather than taken from the caller, for the
float32 path and the bf16 path alike. -/
theorem dispatch_strides_fixed :
    ∀ (dispatch : DispatchFn) (m n k : Int),
      JitKernel.f32_gemm dispatch m n k
        = Option.map JitKernel.mk (dispatch
            { m := m, n := n, k := k, lda := m, ldb := k, ldc := m
              a_in_type := LIBXSMM_DATATYPE_F32, b_in_type := LIBXSMM_DATATYPE_F32
              out_type := LIBXSMM_DATATYPE_F32, comp_type := LIBXSMM_DATATYPE_F32 }
            LIBXSMM_GEMM_FLAG_BETA_0 0)
      ∧ JitKernel.bf16_gemm dispatch m n k
        = Option.map JitKernel.mk (dispatch
            { m := m, n := n, k := k, lda := m, ldb := k, ldc := m
              a_in_type := LIBXSMM_DATATYPE_BF16, b_in_type := LIBXSMM_DATATYPE_BF16
              out_type := LIBXSMM_DATATYPE_F32, comp_type := LIBXSMM_DATATYPE_F32 }
            LIBXSMM_GEMM_FLAG_BETA_0 0) :=
  fun _ _ _ _ => ⟨rfl, rfl⟩

/-- C10: every acquisition passes the flag word
`LIBXSMM_GEMM_FLAG_BETA_0` — whose value is 4 — and prefetch flags 0 to the
code-generation service, on both the float32 and bf16 paths, and the
behaviour of the constructors depends only on the generator's responses at
that one flag combination, so no other flag combination is requestable
through this interface. -/
theorem dispatch_flags_beta0_only :
    LIBXSMM_GEMM_FLAG_BETA_0 = 4
    ∧ (∀ (dispatch : DispatchFn) (m n k : Int),
        JitKernel.f32_gemm dispatch m n k
          = Option.map JitKernel.mk (dispatch (libxsmm_create_gemm_shape m n k m k m
              LIBXSMM_DATATYPE_F32 LIBXSMM_DATATYPE_F32 LIBXSMM_DATATYPE_F32
              LIBXSMM_DATATYPE_F32) 4 0)
        ∧ JitKernel.bf16_gemm dispatch m n k
          = Option.map JitKernel.mk (dispatch (libxsmm_create_gemm_shape m n k m k m
              LIBXSMM_DATATYPE_BF16 LIBXSMM_DATATYPE_BF16 LIBXSMM_DATATYPE_F32
              LIBXSMM_DATATYPE_F32) 4 0))
    ∧ (∀ (dispatch dispatch2 : DispatchFn),
        (∀ s, dispatch s 4 0 = dispatch2 s 4 0) →
        ∀ m n k : Int,
          JitKernel.f32_gemm dispatch m n k = JitKernel.f32_gemm dispatch2 m n k
          ∧ JitKernel.bf16_gemm dispatch m n k
              = JitKernel.bf16_gemm dispatch2 m n k) := by
  refine ⟨rfl, fun dispatch m n k => ⟨rfl, rfl⟩, ?_⟩
  intro dispatch dispatch2 heq m n k
  constructor <;>
    simp [JitKernel.f32_gemm, JitKernel.bf16_gemm, LIBXSMM_GEMM_FLAG_BETA_0, heq]

/-- C10 witness: the flag-independence conjunct applied to a generator and
a wrapper of it that answers only the beta-zero/no-prefetch combination. -/
theorem dispatch_flags_beta0_only_witness :
    JitKernel.f32_gemm (fun _ _ _ => some 7) 2 2 2
      = JitKernel.f32_gemm
          (fun _ fl pf => if fl = 4 ∧ pf = 0 then some 7 else none) 2 2 2 :=
  ((dispatch_flags_beta0_only.2.2 (fun _ _ _ => some 7)
      (fun _ fl pf => if fl = 4 ∧ pf = 0 then some 7 else none)
      (fun _ => rfl)) 2 2 2).1
